import Mathlib

/-!
Verification of the recommendation-ranking pipeline of the papers app.

The repository's visible surface is the React frontend
(`frontend/src/components/RecommendationsPage.tsx`,
`frontend/src/hooks/useRecommendations.ts`, `frontend/src/types/paper.ts`);
the backend pipeline (candidate sources, deduplicator, scorer, cache) is
consumed through the `/recommendations` HTTP endpoint and is not part of the
checked-in frontend sources.  Frontend functions are embedded directly from
the TypeScript; backend components are modelled from the spec, each such
definition carrying a doc comment starting `Modelled from the spec:`.
-/

/-- Embedded from `frontend/src/types/paper.ts` (`interface Paper`):
a paper saved in the user's library.  TypeScript optional fields become
`Option`. -/
structure Paper where
  id : Nat
  title : String
  authors : String
  abstract : Option String := none
  url : Option String := none
  arxiv_url : Option String := none
  read_status : Bool := false
  notes : Option String := none
  created_at : Option String := none
  published_date : Option String := none
deriving DecidableEq

/-- Embedded from `frontend/src/types/paper.ts` (`interface RecommendedPaper`).
The TypeScript `number` score is modelled as a rational. -/
structure RecommendedPaper where
  title : String
  authors : String
  abstract : Option String := none
  arxiv_url : Option String := none
  published_date : Option String := none
  code_url : Option String := none
  relevance_score : ℚ
  explanation : String
  citation_count : Option Nat := none
deriving DecidableEq

/-- Embedded from `frontend/src/types/paper.ts`
(`interface RecommendationsResponse`): the payload of `/recommendations`. -/
structure RecommendationsResponse where
  new_papers : List RecommendedPaper
  related_papers : List RecommendedPaper
  generated_at : String
deriving DecidableEq

/-- JavaScript `String.prototype.toLowerCase` restricted to the simple
per-character case mapping, as used by the author-matching code. -/
def toLowerCase (s : String) : String := String.mk (s.toList.map Char.toLower)

/-- JavaScript `String.prototype.trim`: strip leading and trailing
whitespace. -/
def trimString (s : String) : String :=
  String.mk (((s.toList.dropWhile Char.isWhitespace).reverse.dropWhile Char.isWhitespace).reverse)

/-- Split a character list on every occurrence of a non-empty separator;
fuelled structural recursion (the fuel is at least the list length, so it
never runs out). -/
def splitSepAux (sep : List Char) (fuel : Nat) (l : List Char) : List (List Char) :=
  match fuel with
  | 0 => [l]
  | fuel + 1 =>
    match l with
    | [] => [[]]
    | c :: rest =>
      if sep.isPrefixOf (c :: rest) then
        match splitSepAux sep fuel ((c :: rest).drop sep.length) with
        | [] => [[]]
        | ws => [] :: ws
      else
        match splitSepAux sep fuel rest with
        | [] => [[c]]
        | w :: ws => (c :: w) :: ws

/-- JavaScript `String.prototype.split(sep)` for a non-empty literal
separator, as used with `", "` by the author-handling code. -/
def splitOnSep (sep : String) (s : String) : List String :=
  (splitSepAux sep.toList (s.toList.length + 1) s.toList).map String.mk

/-- Join strings with a separator (`Array.prototype.join` /
`String.intercalate`). -/
def joinWith (sep : String) : List String → String
  | [] => ""
  | w :: ws => ws.foldl (fun acc x => acc ++ sep ++ x) w

/-- Split a string at whitespace, dropping empty fragments. -/
def splitWhitespace (s : String) : List String :=
  ((s.toList.splitOnP Char.isWhitespace).map String.mk).filter (fun w => w ≠ "")

/-- Lookup in an insertion-ordered string map, embedding `Map.get` of the
JavaScript `Map<string, string[]>` used for `libraryAuthors`. -/
def mapGet (m : List (String × List String)) (k : String) : Option (List String) :=
  match m with
  | [] => none
  | (k2, v) :: rest => if k2 == k then some v else mapGet rest k

/-- Update in an insertion-ordered string map, embedding `Map.set`: an
existing key keeps its position, a new key is appended. -/
def mapSet (m : List (String × List String)) (k : String) (v : List String) :
    List (String × List String) :=
  match m with
  | [] => [(k, v)]
  | (k2, v2) :: rest => if k2 == k then (k2, v) :: rest else (k2, v2) :: mapSet rest k v

/-- Embedded from `RecommendationsPage.tsx` lines 243-250 (inner loop of the
`libraryAuthors` memo): add one library paper's authors to the map.  Authors
are split on `", "`, trimmed, empty names skipped, and the paper title is
appended to the author's list. -/
def addPaperAuthors (m : List (String × List String)) (p : Paper) :
    List (String × List String) :=
  (splitOnSep ", " p.authors).foldl
    (fun acc author =>
      let normalized := trimString author
      if normalized == "" then acc
      else
        let existing := (mapGet acc normalized).getD []
        mapSet acc normalized (existing ++ [p.title]))
    m

/-- Embedded from `RecommendationsPage.tsx` lines 239-254: the
`libraryAuthors` memo, mapping each (trimmed) author name to the titles of
library papers by that author, in insertion order. -/
def buildLibraryAuthors (papers : List Paper) : List (String × List String) :=
  papers.foldl addPaperAuthors []

/-- Embedded from `RecommendationsPage.tsx` lines 60-64: scan the library
author map in order for the first entry whose key, lowercased, equals the
already-normalized candidate author name. -/
def findLibMatch (m : List (String × List String)) (normalizedAuthor : String) :
    Option (List String) :=
  match m with
  | [] => none
  | (libAuthor, papers) :: rest =>
    if toLowerCase libAuthor == normalizedAuthor then some papers
    else findLibMatch rest normalizedAuthor

/-- Embedded from `RecommendationsPage.tsx` lines 50, 56-67 (`PaperRow`):
the candidate's comma-separated author string is split on `", "`; each
author is trimmed and lowercased and matched against the library author map;
at most one match per candidate author is reported (the inner loop breaks),
keyed by the original (unnormalized) author segment. -/
def matchingAuthors (m : List (String × List String)) (authorsStr : String) :
    List (String × List String) :=
  (splitOnSep ", " authorsStr).filterMap
    (fun author => (findLibMatch m (toLowerCase (trimString author))).map
      (fun papers => (author, papers)))

/-- Embedded from `RecommendationsPage.tsx` lines 210-223 (`PaperTable`
body): each recommended paper, in list order, is rendered as a `PaperRow`
carrying the paper unchanged together with its author-affinity annotation. -/
def annotateTable (m : List (String × List String)) (papers : List RecommendedPaper) :
    List (RecommendedPaper × List (String × List String)) :=
  papers.map (fun p => (p, matchingAuthors m p.authors))

/-- The em-dash placeholder rendered for a missing citation count. -/
def emDash : String := "—"

/-- Fuelled floor of the base-2 logarithm; with fuel at least `n` this is
`⌊log2 n⌋` for `n ≥ 1` (and 0 for `n ≤ 1`), written structurally so the
kernel can evaluate it. -/
def log2fuel : Nat → Nat → Nat
  | 0, _ => 0
  | f + 1, n => if n ≤ 1 then 0 else log2fuel f (n / 2) + 1

/-- Floor of the base-2 logarithm (0 at 0 and 1). -/
def natLog2 (n : Nat) : Nat := log2fuel n n

/-- Round the fraction `a / b` to the nearest integer, ties to even — the
IEEE-754 default rounding used by JavaScript's floating-point division. -/
def roundHalfEvenFrac (a b : Nat) : Nat :=
  let q := a / b
  let r := a % b
  if 2 * r < b then q
  else if b < 2 * r then q + 1
  else if q % 2 = 0 then q else q + 1

/-- The integer `n` that JavaScript's `(c / 1000).toFixed(1)` renders (its
value is `n / 10`), in exact integer arithmetic.  `c / 1000` is computed in
IEEE-754 binary64: the correctly rounded (round half to even) double is
`m * 2^(L-52)` with `m` the rounded 53-bit significand and `L = ⌊log2 (c/1000)⌋`;
`toFixed(1)` then picks the integer `n` with `n / 10` closest to that double,
ties to the larger `n`.  Faithful for counts below 2^53, where the count
itself is an exact double. -/
def jsTenthsOfThousandths (c : Nat) : Nat :=
  let L := natLog2 (c / 1000)
  if L ≤ 52 then
    let p := 2 ^ (52 - L)
    let m := roundHalfEvenFrac (c * p) 1000
    (20 * m + p) / (2 * p)
  else
    let p := 2 ^ (L - 52)
    let m := roundHalfEvenFrac c (1000 * p)
    10 * m * p

/-- JavaScript `(count / 1000).toFixed(1) + "k"`: the binary64 quotient
rounded by `toFixed` to one decimal (see `jsTenthsOfThousandths`), rendered
with one decimal digit and a `k` suffix.  In particular 1150 renders as
`"1.1k"`, since the double 1150/1000 lies strictly below 1.15. -/
def toFixed1k (c : Nat) : String :=
  let tenths := jsTenthsOfThousandths c
  toString (tenths / 10) ++ "." ++ toString (tenths % 10) ++ "k"

/-- Embedded from `RecommendationsPage.tsx` lines 26-30 (`formatCitations`):
`undefined` and `0` are both falsy in `if (!count)`, so both render the
placeholder dash; counts of at least 1000 render via `toFixed(1)` with a
`k` suffix; remaining counts render in plain decimal. -/
def formatCitations (count : Option Nat) : String :=
  match count with
  | none => emDash
  | some c => if c == 0 then emDash else if 1000 ≤ c then toFixed1k c else toString c

/-- The save-button bookkeeping of `RecommendationsPage` (lines 235-236):
the set of keys already saved and the set of keys with a save in flight,
modelled as duplicate-free lists of keys. -/
structure SaveState where
  savedPapers : List String
  savingPapers : List String
deriving DecidableEq

/-- Embedded from `RecommendationsPage.tsx` lines 211 and 257: the save key
of a recommended paper is `paper.arxiv_url || paper.title` — the arXiv URL
when present and non-empty (the empty string is falsy), otherwise the
title. -/
def saveKey (p : RecommendedPaper) : String :=
  match p.arxiv_url with
  | some u => if u == "" then p.title else u
  | none => p.title

/-- Embedded from `RecommendationsPage.tsx` lines 256-261 (`handleSave` up
to the mutation): if the paper's key is already saved or already saving, the
handler returns without mutating; otherwise the key enters the saving set
and the add-paper mutation fires.  The returned `Bool` records whether the
mutation was issued. -/
def handleSave (st : SaveState) (p : RecommendedPaper) : SaveState × Bool :=
  if st.savedPapers.contains (saveKey p) || st.savingPapers.contains (saveKey p) then (st, false)
  else ({ st with savingPapers := st.savingPapers ++ [saveKey p] }, true)

/-- Embedded from `RecommendationsPage.tsx` lines 271-278 (`onSuccess`): the
key leaves the saving set and enters the saved set. -/
def completeSaveSuccess (st : SaveState) (p : RecommendedPaper) : SaveState :=
  let key := saveKey p
  { savedPapers := st.savedPapers ++ [key]
    savingPapers := st.savingPapers.filter (fun k => k ≠ key) }

/-- The four top-level renderings of `RecommendationsPage`. -/
inductive PageView
  | loadingView
  | errorView
  | noDataView
  | content (d : RecommendationsResponse)
deriving DecidableEq

/-- Embedded from `RecommendationsPage.tsx` lines 290-316: loading and error
screens appear only when no cached data exists (`isLoading && !data`,
`error && !data`, `!data`); whenever `data` is present the page renders
it. -/
def renderPage (isLoading error : Bool) (data : Option RecommendationsResponse) :
    PageView :=
  if isLoading && data.isNone then .loadingView
  else if error && data.isNone then .errorView
  else
    match data with
    | none => .noDataView
    | some d => .content d

/-- Modelled from the spec: the candidate-source kinds `{new, related}` of
§3 (`CandidatePaper`). -/
inductive SourceKind
  | newPaper
  | related
deriving DecidableEq

/-- Modelled from the spec: §3 `CandidatePaper` — a paper fetched from an
external source, transient within a pipeline run. -/
structure CandidatePaper where
  title : String
  authors : List String
  abstract : Option String := none
  arxiv_id : Option String := none
  published_date : Option String := none
  sourceKind : SourceKind
  citation_count : Option Nat := none
deriving DecidableEq

/-- Modelled from the spec: §3 `LibraryPaper` — a saved paper as seen by the
pipeline through the read-only library snapshot. -/
structure LibraryPaper where
  title : String
  authors : List String
  abstract : Option String := none
  arxiv_id : Option String := none
deriving DecidableEq

/-- Modelled from the spec: §3 `ScoredPaper` — a candidate plus relevance
score, explanation, and optional citation count. -/
structure ScoredPaper where
  candidate : CandidatePaper
  relevance_score : ℚ
  explanation : String
  citation_count : Option Nat := none
deriving DecidableEq

/-- Modelled from the spec: §3 `RecommendationBatch`, the only entity that
crosses the cache boundary.  The timestamp is an abstract tick count. -/
structure RecommendationBatch where
  new_papers : List ScoredPaper
  related_papers : List ScoredPaper
  generated_at : Nat
deriving DecidableEq

/-- Modelled from the spec: §4.2 title normalization — lowercased,
punctuation-stripped (characters that are neither alphanumeric nor
whitespace are dropped), whitespace-collapsed. -/
def normalizeTitle (s : String) : String :=
  let lowered := toLowerCase s
  let stripped := String.mk (lowered.toList.filter (fun ch => ch.isAlphanum || ch.isWhitespace))
  joinWith " " (splitWhitespace stripped)

/-- Modelled from the spec: §3 paper identity — the arXiv identifier when
present, else the normalized title. -/
inductive PaperIdentity
  | arxiv (id : String)
  | normTitle (t : String)
deriving DecidableEq

/-- Modelled from the spec: identity of a candidate paper (§3, §4.2). -/
def candidateIdentity (c : CandidatePaper) : PaperIdentity :=
  match c.arxiv_id with
  | some i => .arxiv i
  | none => .normTitle (normalizeTitle c.title)

/-- Modelled from the spec: identity of a library paper (§3). -/
def libraryIdentity (p : LibraryPaper) : PaperIdentity :=
  match p.arxiv_id with
  | some i => .arxiv i
  | none => .normTitle (normalizeTitle p.title)

/-- Modelled from the spec: §4.2 — does the candidate's identity collide
with any library paper? -/
def inLibrary (c : CandidatePaper) (lib : List LibraryPaper) : Bool :=
  lib.any (fun p => libraryIdentity p == candidateIdentity c)

/-- Modelled from the spec: §4.2 — was the candidate already surfaced in the
previous batch? -/
def inPrevBatch (c : CandidatePaper) (prev : List CandidatePaper) : Bool :=
  prev.any (fun p => candidateIdentity p == candidateIdentity c)

/-- Modelled from the spec: §4.2 `dedupe(candidates, library, previousBatch)`
— a candidate is dropped if it matches any library paper, or if it matches an
item of the previous batch while that batch is still fresh. -/
def dedupe (cands : List CandidatePaper) (lib : List LibraryPaper)
    (prev : List CandidatePaper) (prevFresh : Bool) : List CandidatePaper :=
  cands.filter (fun c => !(inLibrary c lib || (prevFresh && inPrevBatch c prev)))

/-- Modelled from the spec: §4.3 — the neutral fallback score substituted on
unparseable oracle output. -/
def neutralScore : ℚ := 5

/-- Modelled from the spec: §4.3 — the fallback explanation stating scoring
was unavailable. -/
def unavailableExplanation : String := "Relevance scoring was unavailable for this paper."

/-- Modelled from the spec: §4.3 — validate and clamp a parsed score into
[0, 10]. -/
def clampScore (q : ℚ) : ℚ := max 0 (min 10 q)

/-- Modelled from the spec: §4.3 — score one candidate given the parsed
oracle output (`none` for unreachable service or unparseable text): a parsed
score is clamped into [0, 10]; otherwise the candidate is kept with the
neutral score 5 and the fallback explanation. -/
def scoreCandidate (c : CandidatePaper) (parsed : Option (ℚ × String)) : ScoredPaper :=
  match parsed with
  | some (q, expl) => ⟨c, clampScore q, expl, c.citation_count⟩
  | none => ⟨c, neutralScore, unavailableExplanation, c.citation_count⟩

/-- Modelled from the spec: §4.3 — score every surviving candidate, one
oracle call each; a failed call degrades that one item, never the batch. -/
def scoreAll (cands : List CandidatePaper) (oracle : CandidatePaper → Option (ℚ × String)) :
    List ScoredPaper :=
  cands.map (fun c => scoreCandidate c (oracle c))

/-- Modelled from the spec: §4.5 — one cache slot: the last good batch, the
identifier of the in-flight regeneration run if any, and a counter of runs
ever started (run `n` is the `n`-th regeneration to execute). -/
structure CacheSlot where
  batch : Option RecommendationBatch
  inflight : Option Nat
  runsStarted : Nat
deriving DecidableEq

/-- The Empty cache slot, before any successful run. -/
def emptySlot : CacheSlot := ⟨none, none, 0⟩

/-- Modelled from the spec: §4.5/§9 single-flight forced refresh — with no
run in flight a new regeneration run starts and the caller awaits it; with a
run already in flight the caller joins it instead of starting another.  The
returned ticket is the identifier of the run whose result the caller will
receive. -/
def forceRefresh (s : CacheSlot) : CacheSlot × Nat :=
  match s.inflight with
  | some r => (s, r)
  | none => ({ s with inflight := some s.runsStarted, runsStarted := s.runsStarted + 1 },
             s.runsStarted)

/-- Outcome of a read against the cache slot: either a batch served
immediately, or the caller blocks until the identified first run
completes. -/
inductive ReadResult
  | served (b : RecommendationBatch)
  | blockedUntil (run : Nat)
deriving DecidableEq

/-- Modelled from the spec: §4.5 read path — a present batch (Fresh or
Stale) is served immediately; a stale batch additionally triggers a
background regeneration unless one is already in flight; only an Empty slot
blocks the caller until the first run completes. -/
def readSlot (now window : Nat) (s : CacheSlot) : CacheSlot × ReadResult :=
  match s.batch with
  | some b =>
    if b.generated_at + window ≤ now then
      match s.inflight with
      | some _ => (s, .served b)
      | none => ({ s with inflight := some s.runsStarted, runsStarted := s.runsStarted + 1 },
                 .served b)
    else (s, .served b)
  | none =>
    match s.inflight with
    | some r => (s, .blockedUntil r)
    | none => ({ s with inflight := some s.runsStarted, runsStarted := s.runsStarted + 1 },
               .blockedUntil s.runsStarted)

/-- Outcome of one regeneration run: a new batch, or total failure of all
sources and scoring. -/
inductive RegenOutcome
  | ok (b : RecommendationBatch)
  | totalFailure
deriving DecidableEq

/-- What a caller of `getRecommendations` receives: a batch when one exists,
and a soft-error flag. -/
structure RecResult where
  batch : Option RecommendationBatch
  softError : Bool
deriving DecidableEq

/-- Modelled from the spec: §4.5/§7(c) — completion of a regeneration run: a
successful run atomically replaces the batch; a total failure leaves the
previous batch in place and surfaces a soft error alongside the (stale)
data rather than clearing the cache. -/
def applyRefreshOutcome (s : CacheSlot) (o : RegenOutcome) : CacheSlot × RecResult :=
  match o with
  | .ok b => ({ s with batch := some b, inflight := none }, ⟨some b, false⟩)
  | .totalFailure => ({ s with inflight := none }, ⟨s.batch, true⟩)

/-- Library paper used in the author-affinity scenario. -/
def smithLibraryPaper : Paper :=
  { id := 1, title := "Deep Residual Learning", authors := "A. Smith" }

/-- Cache slot holding a batch generated at tick 5, used as witness input. -/
def sampleBatch : RecommendationBatch := ⟨[], [], 5⟩

/-- Slot holding `sampleBatch` with no run in flight. -/
def slotWithBatch : CacheSlot := ⟨some sampleBatch, none, 1⟩

/-- Candidate used as witness input for the scorer contract. -/
def sampleCandidate : CandidatePaper :=
  { title := "Sample Paper", authors := ["X. Yu"], sourceKind := .newPaper }

/-- Candidate whose normalized title collides with `matchingLibrary`. -/
def dupCandidate : CandidatePaper :=
  { title := "Attention,  Is All You Need!!", authors := ["V"], sourceKind := .newPaper }

/-- One-paper library matching `dupCandidate` by normalized title. -/
def matchingLibrary : List LibraryPaper :=
  [{ title := "attention is all you need", authors := ["V"] }]

/-- Save state in which the shared title is already saved. -/
def savedTitleState : SaveState := ⟨["Shared Title"], []⟩

/-- First of two distinct recommendations sharing a title and lacking an
arXiv URL. -/
def recA : RecommendedPaper :=
  { title := "Shared Title", authors := "X. Yu", relevance_score := 7, explanation := "a" }

/-- Second of two distinct recommendations sharing a title and lacking an
arXiv URL. -/
def recB : RecommendedPaper :=
  { title := "Shared Title", authors := "Z. Chen", relevance_score := 6, explanation := "b" }

/-- Response used as witness input for the render path. -/
def sampleResponse : RecommendationsResponse := ⟨[], [], "2026-01-01T00:00:00Z"⟩

/-- C1.  Single-flight regeneration: two forced refreshes issued against the
same cache slot yield the same ticket — both callers await the same
regeneration run, hence receive the same batch with the same `generated_at`
— the second request leaves the slot untouched, and when no run was in
flight (in particular while the slot is Empty) exactly one new run is
started. -/
theorem single_flight_forced_refresh (s : CacheSlot) :
    (forceRefresh (forceRefresh s).1).2 = (forceRefresh s).2 ∧
    (forceRefresh (forceRefresh s).1).1 = (forceRefresh s).1 ∧
    (s.inflight = none → (forceRefresh (forceRefresh s).1).1.runsStarted = s.runsStarted + 1) := by
  rcases s with ⟨b, infl, n⟩
  cases infl <;> simp [forceRefresh]

/-- Witness for C1 at the Empty slot. -/
theorem single_flight_forced_refresh_witness :
    (forceRefresh (forceRefresh emptySlot).1).2 = (forceRefresh emptySlot).2 ∧
    (forceRefresh (forceRefresh emptySlot).1).1.runsStarted = emptySlot.runsStarted + 1 :=
  ⟨(single_flight_forced_refresh emptySlot).1,
   (single_flight_forced_refresh emptySlot).2.2 rfl⟩

/-- C3.  Stale-while-revalidate reads: whenever the slot holds a batch
(Fresh or Stale) a read serves it immediately — regardless of any in-flight
background regeneration — and only an Empty slot makes the caller block
until a first run completes. -/
theorem read_serves_batch_immediately (now window : Nat) (s : CacheSlot)
    (b : RecommendationBatch) :
    (s.batch = some b → (readSlot now window s).2 = .served b) ∧
    (s.batch = none → ∃ r, (readSlot now window s).2 = .blockedUntil r) := by
  rcases s with ⟨sb, infl, n⟩
  constructor
  · intro h
    have hsb : sb = some b := h
    subst hsb
    cases infl <;> (simp only [readSlot]; split <;> simp)
  · intro h
    have hsb : sb = none := h
    subst hsb
    cases infl <;> simp [readSlot]

/-- Witness for C3: a slot with a batch serves it at once; the Empty slot
blocks. -/
theorem read_serves_batch_immediately_witness :
    (readSlot 0 10 slotWithBatch).2 = .served sampleBatch ∧
    ∃ r, (readSlot 0 10 emptySlot).2 = .blockedUntil r :=
  ⟨(read_serves_batch_immediately 0 10 slotWithBatch sampleBatch).1 rfl,
   (read_serves_batch_immediately 0 10 emptySlot sampleBatch).2 rfl⟩

/-- C7.  No silent regeneration within the freshness window: when a batch
exists and the second of two reads happens before the freshness window has
elapsed since that batch was generated, both reads serve exactly the
previous batch — same `generated_at` — and the slot is unchanged (no
regeneration is even started). -/
theorem read_within_window_same_batch (t1 t2 window : Nat) (s : CacheSlot)
    (b : RecommendationBatch) (hb : s.batch = some b) (h12 : t1 ≤ t2)
    (h2 : t2 < b.generated_at + window) :
    readSlot t1 window s = (s, .served b) ∧
    readSlot t2 window (readSlot t1 window s).1 = (s, .served b) := by
  have hn1 : ¬ (b.generated_at + window ≤ t1) := by omega
  have hn2 : ¬ (b.generated_at + window ≤ t2) := by omega
  rcases s with ⟨sb, infl, n⟩
  have hsb : sb = some b := hb
  subst hsb
  constructor <;> simp [readSlot, hn1, hn2]

/-- Witness for C7: reads at ticks 6 and 7 against a batch generated at tick
5 with a window of 10 both serve that batch. -/
theorem read_within_window_same_batch_witness :
    readSlot 6 10 slotWithBatch = (slotWithBatch, .served sampleBatch) ∧
    readSlot 7 10 (readSlot 6 10 slotWithBatch).1 = (slotWithBatch, .served sampleBatch) :=
  read_within_window_same_batch 6 7 10 slotWithBatch sampleBatch rfl (by decide) (by decide)

/-- C2.  Stale data beats no data: when a previous batch exists and a
refresh fails entirely, the result still carries that batch (same
`generated_at`) together with the soft-error flag, the cache keeps the
batch, and the page, embedded from `RecommendationsPage.tsx`, renders
available data rather than the error screen whenever data is present. -/
theorem stale_beats_no_data (s : CacheSlot) (b : RecommendationBatch)
    (isLoading error : Bool) (d : RecommendationsResponse) (hb : s.batch = some b) :
    (applyRefreshOutcome s .totalFailure).2 = ⟨some b, true⟩ ∧
    ((applyRefreshOutcome s .totalFailure).1).batch = some b ∧
    renderPage isLoading error (some d) = .content d := by
  refine ⟨?_, ?_, ?_⟩
  · simp [applyRefreshOutcome, hb]
  · simp [applyRefreshOutcome, hb]
  · simp [renderPage]

/-- Witness for C2 at a slot holding a batch, with both flags raised. -/
theorem stale_beats_no_data_witness :
    (applyRefreshOutcome slotWithBatch .totalFailure).2 = ⟨some sampleBatch, true⟩ ∧
    ((applyRefreshOutcome slotWithBatch .totalFailure).1).batch = some sampleBatch ∧
    renderPage true true (some sampleResponse) = .content sampleResponse :=
  stale_beats_no_data slotWithBatch sampleBatch true true sampleResponse rfl

/-- C4.  Scorer output contract: every scored paper has a relevance score in
[0, 10]; unparseable oracle output keeps the candidate with score exactly 5
and the non-empty fallback explanation; scoring never discards a candidate
(output length equals input length). -/
theorem scorer_output_contract (c : CandidatePaper) (parsed : Option (ℚ × String))
    (cands : List CandidatePaper) (oracle : CandidatePaper → Option (ℚ × String)) :
    (0 ≤ (scoreCandidate c parsed).relevance_score ∧
      (scoreCandidate c parsed).relevance_score ≤ 10) ∧
    (parsed = none →
      scoreCandidate c parsed = ⟨c, 5, unavailableExplanation, c.citation_count⟩ ∧
      unavailableExplanation ≠ "") ∧
    (scoreAll cands oracle).length = cands.length := by
  refine ⟨?_, ?_, by simp [scoreAll]⟩
  · rcases parsed with _ | ⟨q, expl⟩
    · constructor <;> norm_num [scoreCandidate, neutralScore]
    · refine ⟨le_max_left 0 _, max_le (by norm_num) (min_le_left 10 q)⟩
  · rintro rfl
    exact ⟨rfl, by decide⟩

/-- Witness for C4 at a concrete candidate with unparseable oracle output. -/
theorem scorer_output_contract_witness :
    scoreCandidate sampleCandidate none =
      ⟨sampleCandidate, 5, unavailableExplanation, sampleCandidate.citation_count⟩ ∧
    unavailableExplanation ≠ "" :=
  (scorer_output_contract sampleCandidate none [] (fun _ => none)).2.1 rfl

/-- C5.  Deduplicator library exclusion: a candidate whose identity
(matching arXiv identifier, else equal normalized title) appears in the
library never survives `dedupe`, for any candidate list, previous batch and
freshness flag. -/
theorem dedupe_excludes_library_matches (cands : List CandidatePaper)
    (lib : List LibraryPaper) (prev : List CandidatePaper) (prevFresh : Bool)
    (c : CandidatePaper) (hc : inLibrary c lib = true) :
    c ∉ dedupe cands lib prev prevFresh := by
  intro hmem
  rw [dedupe, List.mem_filter] at hmem
  simp [hc] at hmem

/-- Witness for C5: a candidate differing from a library title only in case,
punctuation and spacing is excluded. -/
theorem dedupe_excludes_library_matches_witness :
    inLibrary dupCandidate matchingLibrary = true ∧
    dupCandidate ∉ dedupe [dupCandidate] matchingLibrary [] false :=
  ⟨by decide,
   dedupe_excludes_library_matches [dupCandidate] matchingLibrary [] false dupCandidate
     (by decide)⟩

/-- C6.  Author-affinity matching is exact on the normalized (trimmed,
lowercased) author name: a library paper by "A. Smith" matches a candidate
author "a. smith" — exactly one match, annotated with the library paper's
title — while the punctuation variant "A Smith" does not match at all (no
fuzzy matching). -/
theorem author_match_case_insensitive :
    matchingAuthors (buildLibraryAuthors [smithLibraryPaper]) "a. smith"
      = [("a. smith", ["Deep Residual Learning"])] ∧
    matchingAuthors (buildLibraryAuthors [smithLibraryPaper]) "A Smith" = [] := by
  decide

/-- C8.  Author-affinity annotation is frame-preserving: the annotated table
projects back to exactly the input papers — every paper keeps its
`relevance_score` and its position; the matcher only attaches the
informational annotation. -/
theorem author_affinity_frame_preserving (m : List (String × List String))
    (papers : List RecommendedPaper) :
    (annotateTable m papers).map Prod.fst = papers := by
  simp [annotateTable, Function.comp_def]

/-- C9.  Citation display conflates zero with absent: `formatCitations`
renders the placeholder dash for both `undefined` and `0`; counts of at
least 1000 render as the count divided by 1000 — the IEEE-754 binary64
quotient, rounded by `toFixed` to one decimal — with a `k` suffix; other
counts render in plain decimal. -/
theorem formatCitations_conflates_zero_and_absent (c : Nat) :
    formatCitations none = emDash ∧
    formatCitations (some 0) = emDash ∧
    (1000 ≤ c → formatCitations (some c) = toFixed1k c) ∧
    (0 < c → c < 1000 → formatCitations (some c) = toString c) := by
  refine ⟨rfl, rfl, ?_, ?_⟩
  · intro h
    have hc0 : (c == 0) = false := by simp; omega
    simp [formatCitations, hc0, h]
  · intro h1 h2
    have hc0 : (c == 0) = false := by simp; omega
    have hge : ¬ (1000 ≤ c) := by omega
    simp [formatCitations, hc0, hge]

/-- Witness for C9 at counts 1500, 1150 and 42; 1150 pins the binary64
behavior — the double 1150/1000 is below 1.15, so the rendering is
`"1.1k"`, not `"1.2k"`. -/
theorem formatCitations_conflates_zero_and_absent_witness :
    (formatCitations (some 1500) = toFixed1k 1500 ∧ toFixed1k 1500 = "1.5k") ∧
    (formatCitations (some 1150) = toFixed1k 1150 ∧ toFixed1k 1150 = "1.1k") ∧
    (formatCitations (some 42) = toString 42 ∧ toString 42 = "42") :=
  ⟨⟨(formatCitations_conflates_zero_and_absent 1500).2.2.1 (by decide), by decide⟩,
   ⟨(formatCitations_conflates_zero_and_absent 1150).2.2.1 (by decide), by decide⟩,
   ⟨(formatCitations_conflates_zero_and_absent 42).2.2.2 (by decide) (by decide), by decide⟩⟩

/-- C10.  Save is guarded and keyed by `arxiv_url`-else-title: a save whose
key is already in the saved set or the in-flight saving set performs no
mutation; two recommendations lacking `arxiv_url` but sharing a title share
one key; and once one of two same-key papers has been submitted for saving,
saving the other is a no-op — they cannot both be saved. -/
theorem save_guard_keyed (st : SaveState) (p q : RecommendedPaper) :
    ((st.savedPapers.contains (saveKey p) || st.savingPapers.contains (saveKey p)) = true →
      handleSave st p = (st, false)) ∧
    (p.arxiv_url = none → q.arxiv_url = none → p.title = q.title → saveKey p = saveKey q) ∧
    (saveKey p = saveKey q →
      handleSave (handleSave st p).1 q = ((handleSave st p).1, false)) := by
  refine ⟨?_, ?_, ?_⟩
  · intro h
    unfold handleSave
    rw [if_pos h]
  · intro hp hq ht
    simp [saveKey, hp, hq, ht]
  · intro hk
    by_cases h : (st.savedPapers.contains (saveKey p) || st.savingPapers.contains (saveKey p)) = true
    · have h1 : handleSave st p = (st, false) := by unfold handleSave; rw [if_pos h]
      have hq : (st.savedPapers.contains (saveKey q)
          || st.savingPapers.contains (saveKey q)) = true := by rw [← hk]; exact h
      rw [h1]
      unfold handleSave
      rw [if_pos hq]
    · have h1 : handleSave st p
          = ({ st with savingPapers := st.savingPapers ++ [saveKey p] }, true) := by
        unfold handleSave; rw [if_neg h]
      rw [h1]
      have hq : (st.savedPapers.contains (saveKey q)
          || (st.savingPapers ++ [saveKey p]).contains (saveKey q)) = true := by
        rw [← hk]
        simp
      unfold handleSave
      rw [if_pos hq]

/-- Witness for C10: with the shared title already saved, saving either of
two distinct URL-less recommendations with that title mutates nothing. -/
theorem save_guard_keyed_witness :
    handleSave savedTitleState recA = (savedTitleState, false) ∧
    saveKey recA = saveKey recB ∧
    handleSave (handleSave savedTitleState recA).1 recB
      = ((handleSave savedTitleState recA).1, false) :=
  ⟨(save_guard_keyed savedTitleState recA recB).1 (by decide),
   (save_guard_keyed savedTitleState recA recB).2.1 rfl rfl rfl,
   (save_guard_keyed savedTitleState recA recB).2.2
     ((save_guard_keyed savedTitleState recA recB).2.1 rfl rfl rfl)⟩
